import Mathlib

/-!
# Verification of the puls-twin physiological-state pipeline

A shallow embedding, in Lean 4, of the parts of the puls-twin source that the
frozen claims speak about:

* `src/avatar/state_manager.py` — primary-state resolution, the bounded state
  history, the current-state query, trend analysis, and output fan-out;
* `src/wearable/processor.py` — the smoothing buffer;
* `src/pulse/workout_controller.py` — the per-tick workout intensity;
* `src/pulse/hangover_recovery.py` — hangover session start, the dehydration
  action, and recovery-progress updates;
* `src/pulse/simulation.py` — the threshold dictionary and its update.

Python dictionaries are modelled as association lists (`List (String × _)`),
Python floats as `ℚ`, wall-clock instants as explicit `ℚ` arguments, and
dynamic attribute lookup / raised exceptions as `Option` / `Except` values.
-/

namespace PulsTwin

/-! ## Dictionary primitives shared by the embedded code -/

/-- Python `states.get(key, False)` on a dict of boolean flags: the value at
the first matching key, `False` when the key is absent. -/
def flagGet (states : List (String × Bool)) (key : String) : Bool :=
  match states.find? (fun kv => kv.1 == key) with
  | some kv => kv.2
  | none => false

/-- Python `d.get(key)` / `d[key]` lookup on a string-keyed dict. -/
def dlookup {α : Type} : List (String × α) → String → Option α
  | [], _ => none
  | kv :: rest, k => if kv.1 == k then some kv.2 else dlookup rest k

/-- Python `key in d`. -/
def dictContains {α : Type} (d : List (String × α)) (k : String) : Bool :=
  (dlookup d k).isSome

/-- Python `d[key] = v` for a key already present: the entry keeps its
position, only its value changes; a dict has no duplicate keys. -/
def dictSet {α : Type} : List (String × α) → String → α → List (String × α)
  | [], _, _ => []
  | kv :: rest, k, v => (if kv.1 == k then (kv.1, v) else kv) :: dictSet rest k v

/-- The append-then-trim idiom `buf.append(x); if len(buf) > cap: buf.pop(0)`
used at `state_manager.py:128-130` (cap 100) and `processor.py:110-112`
(cap 5). -/
def boundedAppend {α : Type} (cap : Nat) (h : List α) (r : α) : List α :=
  if cap < (h ++ [r]).length then (h ++ [r]).drop 1 else h ++ [r]

/-! ## Avatar state manager (`src/avatar/state_manager.py`) -/

/-- `AvatarStateManager.max_history_length` (`state_manager.py:28`). -/
def max_history_length : Nat := 100

/-- `AvatarStateManager.state_descriptions` (`state_manager.py:31-36`). -/
def state_descriptions : List (String × String) :=
  [("is_dizzy", "Twin is dizzy"),
   ("is_chill", "Twin is chill"),
   ("is_beast_mode", "Twin is in beast mode"),
   ("neutral", "Twin is in a neutral state")]

/-- `_determine_primary_state` (`state_manager.py:139-162`): the first true
flag in the order dizzy, beast_mode, chill wins; otherwise neutral. -/
def determine_primary_state (states : List (String × Bool)) : String :=
  if flagGet states "is_dizzy" then "is_dizzy"
  else if flagGet states "is_beast_mode" then "is_beast_mode"
  else if flagGet states "is_chill" then "is_chill"
  else "neutral"

/-- The history-append step of `_update_avatar_state`
(`state_manager.py:127-130`). -/
def pushHistory {α : Type} (h : List α) (r : α) : List α :=
  boundedAppend max_history_length h r

/-- The state history reached from an initially empty history by the
insertions of `_update_avatar_state`, one per element of `rs` in order. -/
def insertAll {α : Type} (rs : List α) : List α :=
  rs.foldl pushHistory []

/-- A record built by `_update_avatar_state` (`state_manager.py:116-125`).
The fields the two-key default record of `get_current_state` lacks are
`Option`s: every history record carries a timestamp, a flag snapshot and
physiological values, the default carries none of them. -/
structure AvatarRecord where
  timestamp : Option ℚ
  primary_state : String
  state_description : String
  all_states : Option (List (String × Bool))
  physiological_values : Option (List (String × ℚ))

/-- `get_current_state` (`state_manager.py:164-171`): the most recent history
record, or a two-key neutral default when the history is empty. -/
def get_current_state (history : List AvatarRecord) : AvatarRecord :=
  match history.getLast? with
  | none =>
    { timestamp := none
      primary_state := "neutral"
      state_description := (dlookup state_descriptions "neutral").getD ""
      all_states := none
      physiological_values := none }
  | some r => r

/-- The result dict of `get_state_trend` (`state_manager.py:177-230`); the
empty-window result carries no `frequency` key, hence the `Option`. -/
structure TrendResult where
  trend : String
  frequency : Option ℚ
  occurrences : Nat
  total_records : Nat

/-- The window filter of `get_state_trend` (`state_manager.py:191-202`): a
record is kept when its timestamp parses and `now - timestamp` is at most
`duration_seconds`; a record whose timestamp is missing or unparseable is
skipped. -/
def windowFilter (history : List AvatarRecord) (now duration_seconds : ℚ) :
    List AvatarRecord :=
  history.filter (fun r =>
    match r.timestamp with
    | some ts => decide (now - ts ≤ duration_seconds)
    | none => false)

/-- The per-record flag read
`record.get('all_states', {}).get(state_key, False)`
(`state_manager.py:205-206`). -/
def recordFlag (r : AvatarRecord) (state_key : String) : Bool :=
  flagGet (r.all_states.getD []) state_key

/-- The occurrence count of `get_state_trend` (`state_manager.py:205-206`). -/
def trendOccurrences (history : List AvatarRecord) (state_key : String)
    (now duration_seconds : ℚ) : Nat :=
  ((windowFilter history now duration_seconds).filter
    (fun r => recordFlag r state_key)).length

/-- The record count of the filtered window (`state_manager.py:208`). -/
def trendTotal (history : List AvatarRecord) (now duration_seconds : ℚ) : Nat :=
  (windowFilter history now duration_seconds).length

/-- The occurrence frequency of `get_state_trend` (`state_manager.py:213`). -/
def trendFrequency (history : List AvatarRecord) (state_key : String)
    (now duration_seconds : ℚ) : ℚ :=
  (trendOccurrences history state_key now duration_seconds : ℚ) /
    (trendTotal history now duration_seconds : ℚ)

/-- `get_state_trend` (`state_manager.py:177-230`). -/
def get_state_trend (history : List AvatarRecord) (state_key : String)
    (now duration_seconds : ℚ) : TrendResult :=
  if history.isEmpty then ⟨"neutral", none, 0, 0⟩
  else
    let occurrences := trendOccurrences history state_key now duration_seconds
    let total_records := trendTotal history now duration_seconds
    if total_records = 0 then ⟨"neutral", none, 0, 0⟩
    else
      let frequency : ℚ := (occurrences : ℚ) / (total_records : ℚ)
      ⟨if frequency < 0.1 then "rare"
        else if frequency < 0.3 then "occasional"
        else if frequency < 0.7 then "frequent"
        else "dominant",
       some frequency, occurrences, total_records⟩

/-- An output channel registered with `register_output_channel`
(`state_manager.py:41-51`): an object with an `update_avatar_state` method.
`behavior` abstracts what one call of that method does with a record —
success, or a raised exception of type `ε` — and `received` logs the records
whose update completed. -/
structure OutputChannel (α ε : Type) where
  behavior : α → Except ε Unit
  received : List α

/-- One `channel.update_avatar_state(state_record)` call
(`state_manager.py:135`): on success the record is delivered; a raised
exception leaves the channel's state as it was. -/
def channelUpdate {α ε : Type} (c : OutputChannel α ε) (r : α) :
    OutputChannel α ε × Option ε :=
  match c.behavior r with
  | Except.ok _ => ({ c with received := c.received ++ [r] }, none)
  | Except.error e => (c, some e)

/-- One iteration of the fan-out loop of `_update_avatar_state`
(`state_manager.py:133-137`): the channel is updated; an exception is caught,
logged (collected in the second component) and the loop continues. -/
def notifyStep {α ε : Type} (r : α)
    (acc : List (OutputChannel α ε) × List ε) (c : OutputChannel α ε) :
    List (OutputChannel α ε) × List ε :=
  match channelUpdate c r with
  | (c', none) => (acc.1 ++ [c'], acc.2)
  | (c', some e) => (acc.1 ++ [c'], acc.2 ++ [e])

/-- The whole fan-out loop of `_update_avatar_state`
(`state_manager.py:133-137`): every registered channel in registration
order. -/
def notifyChannels {α ε : Type} (channels : List (OutputChannel α ε))
    (r : α) : List (OutputChannel α ε) × List ε :=
  channels.foldl (notifyStep r) ([], [])

/-- A concrete channel whose update always succeeds. -/
def okChannel : OutputChannel Nat String := ⟨fun _ => Except.ok (), []⟩

/-- A concrete channel whose update always raises. -/
def raisingChannel : OutputChannel Nat String :=
  ⟨fun _ => Except.error "boom", []⟩

/-! ## Wearable smoothing buffer (`src/wearable/processor.py`) -/

/-- `WearableDataProcessor.buffer_size` (`processor.py:48`). -/
def buffer_size : Nat := 5

/-- `_smooth_data` (`processor.py:108-113`): append the value, trim the buffer
to the window, return the mean of what remains together with the mutated
buffer. -/
def smooth_data (value : ℚ) (buffer : List ℚ) : ℚ × List ℚ :=
  let b := boundedAppend buffer_size buffer value
  (b.sum / (b.length : ℚ), b)

/-- The outputs of successive `_smooth_data` calls, threading the buffer. -/
def smoothRun : List ℚ → List ℚ → List ℚ
  | _, [] => []
  | buf, x :: xs => (smooth_data x buf).1 :: smoothRun (smooth_data x buf).2 xs

/-- The smoothing outputs starting from the empty buffer of `__init__`. -/
def smoothOutputs (xs : List ℚ) : List ℚ := smoothRun [] xs

/-- The last `cap` elements of a list (all of it when shorter). -/
def lastWindow (cap : Nat) (p : List ℚ) : List ℚ := p.drop (p.length - cap)

/-- Arithmetic mean of a window. -/
def windowMean (w : List ℚ) : ℚ := w.sum / (w.length : ℚ)

/-! ## Workout controller (`src/pulse/workout_controller.py`) -/

/-- The `WorkoutController` fields set by `reset` and `start_workout`
(`workout_controller.py:26-66`). -/
structure WorkoutState where
  active : Bool
  intensity : ℚ
  duration_minutes : ℚ
  start_time : ℚ
  end_time : ℚ
  workout_type : String

/-- Python float `%` with a positive divisor: `x - y * floor(x / y)`. -/
def fmod (x y : ℚ) : ℚ := x - y * (⌊x / y⌋ : ℤ)

/-- `get_current_intensity` (`workout_controller.py:79-122`) as a function of
the state and the sampled wall clock; the returned state records the
deactivation performed when the workout has ended. -/
def get_current_intensity (s : WorkoutState) (current_time : ℚ) :
    ℚ × WorkoutState :=
  if s.active = false then (0, s)
  else if s.end_time ≤ current_time then (0, { s with active := false })
  else
    let total_duration := s.end_time - s.start_time
    let elapsed := current_time - s.start_time
    let fraction := min 1 (elapsed / total_duration)
    if s.workout_type = "constant" then (s.intensity, s)
    else if s.workout_type = "interval" then
      (if fmod elapsed 120 / 120 < 0.5 then s.intensity
       else s.intensity * 0.4, s)
    else if s.workout_type = "ramp_up" then
      (0.2 * s.intensity + 0.8 * s.intensity * fraction, s)
    else if s.workout_type = "ramp_down" then
      (s.intensity - 0.8 * s.intensity * fraction, s)
    else (s.intensity, s)

/-! ## Hangover recovery controller (`src/pulse/hangover_recovery.py`) -/

/-- An action pushed to the Pulse engine with `process_action`. -/
inductive EngineAction where
  | hemorrhage (compartment : String) (rate_mL_per_s : ℚ)
  | fluidAdministration (fluid_type : String) (bag_volume_mL rate_mL_per_s : ℚ)
  | substanceInfusion (substance : String)
      (concentration_mg_per_L rate_mL_per_s : ℚ)

/-- The six intervention levels (`hangover_recovery.py:39-46`). -/
structure InterventionLevels where
  hydration : ℚ
  electrolytes : ℚ
  nutrients : ℚ
  rest : ℚ
  exercise : ℚ
  medication : ℚ

/-- All levels at 0.0, the state after `reset` and after session start. -/
def zeroLevels : InterventionLevels := ⟨0, 0, 0, 0, 0, 0⟩

/-- The `last_actions` timestamps (`hangover_recovery.py:59-65`). -/
structure LastActions where
  dehydration : ℚ
  hydration : ℚ
  electrolytes : ℚ
  nutrients : ℚ
  medication : ℚ

/-- All last-action timestamps at 0. -/
def zeroLastActions : LastActions := ⟨0, 0, 0, 0, 0⟩

/-- The `HangoverRecoveryController` state (`hangover_recovery.py:18-65`);
the attached engine is modelled by whether one is present plus the list of
actions it has processed, in order. -/
structure HangoverState where
  engineAttached : Bool
  engineActions : List EngineAction
  active : Bool
  severity : ℚ
  recovery_progress : ℚ
  start_time : ℚ
  last_update_time : ℚ
  interventions : InterventionLevels
  last_actions : LastActions

/-- The instance attributes ever assigned on `HangoverRecoveryController`
(`__init__` and `reset`, `hangover_recovery.py:18-65`): reading any other
attribute of the object raises `AttributeError`.  `pulse_engine` is not among
them — the engine reference is stored under the name `engine`. -/
def hangoverAttrs : List String :=
  ["engine", "lock", "active", "severity", "recovery_progress", "start_time",
   "last_update_time", "interventions", "recovery_multipliers", "last_actions"]

/-- Whether a `HangoverRecoveryController` attribute lookup succeeds. -/
def hasHangoverAttr (name : String) : Bool := hangoverAttrs.contains name

/-- `_apply_dehydration` (`hangover_recovery.py:128-174`).  Its first
operation evaluates `self.pulse_engine`; when that attribute does not exist
the `AttributeError` propagates uncaught (the guard `if not self.pulse_engine
or severity < 0.01` sits outside the `try`), modelled as `Except.error`.
Were the attribute present, the function would return `False` for a missing
engine or `severity < 0.01`, and otherwise process a "Vena Cava" hemorrhage
at `0.1 + severity * 0.4` mL/s and return `True`. -/
def apply_dehydration (s : HangoverState) (severity : ℚ) :
    Except String (HangoverState × Bool) :=
  if hasHangoverAttr "pulse_engine" = false then
    Except.error "AttributeError: pulse_engine"
  else if s.engineAttached = false ∨ severity < 0.01 then
    Except.ok (s, false)
  else
    Except.ok
      ({ s with engineActions := s.engineActions ++
          [EngineAction.hemorrhage "Vena Cava" (0.1 + severity * 0.4)] },
       true)

/-- `_apply_initial_hangover_effects` (`hangover_recovery.py:106-126`): calls
`_apply_dehydration(self.severity)` inside `try`; an exception is logged and
swallowed, leaving the state as it was. -/
def apply_initial_hangover_effects (s : HangoverState) : HangoverState :=
  match apply_dehydration s s.severity with
  | Except.ok (s1, _) => s1
  | Except.error _ => s

/-- `start_hangover_simulation` (`hangover_recovery.py:67-104`). -/
def start_hangover_simulation (s : HangoverState) (now severity : ℚ) :
    HangoverState × Bool :=
  if s.engineAttached = false then (s, false)
  else
    let sev := max 0 (min 1 severity)
    let s1 := { s with
      active := true
      severity := sev
      recovery_progress := 0
      start_time := now
      last_update_time := now
      interventions := zeroLevels
      last_actions := zeroLastActions }
    (apply_initial_hangover_effects s1, true)

/-- The controller state after `__init__`/`reset` with a Pulse engine
attached (`hangover_recovery.py:18-65`). -/
def initialHangoverState : HangoverState :=
  { engineAttached := true, engineActions := [], active := false, severity := 0,
    recovery_progress := 0, start_time := 0, last_update_time := 0,
    interventions := zeroLevels, last_actions := zeroLastActions }

/-- The Σ level·multiplier loop of `update_recovery_progress`
(`hangover_recovery.py:391-393`), with the multipliers of
`hangover_recovery.py:49-56`. -/
def weightedInterventions (lv : InterventionLevels) : ℚ :=
  lv.hydration * 0.5 + lv.electrolytes * 0.3 + lv.nutrients * 0.3 +
    lv.rest * 0.4 + lv.exercise * 0.2 + lv.medication * 0.3

/-- `update_recovery_progress` (`hangover_recovery.py:375-415`) as a function
of the state and the sampled wall clock, returning the new state and the
progress value the method returns. -/
def update_recovery_progress (s : HangoverState) (now : ℚ) :
    HangoverState × ℚ :=
  if s.active = false then (s, 0)
  else
    let time_delta := now - s.last_update_time
    let recovery_rate := weightedInterventions s.interventions / (1 + s.severity)
    let base_rate : ℚ := 1 / 86400
    let enhanced_rate := base_rate * (1 + recovery_rate * 5)
    let progress := min 1 (s.recovery_progress + enhanced_rate * time_delta)
    if 0.99 ≤ progress then
      ({ s with
          last_update_time := now
          recovery_progress := 1
          active := false }, 1)
    else
      ({ s with
          last_update_time := now
          recovery_progress := progress }, progress)

/-- A recovery-controller state mid-session: active, with the given severity,
starting progress, last-update instant and intervention levels. -/
def mkRecoveryState (sev prog t0 : ℚ) (lv : InterventionLevels) :
    HangoverState :=
  { engineAttached := true, engineActions := [], active := true,
    severity := sev, recovery_progress := prog, start_time := t0,
    last_update_time := t0, interventions := lv,
    last_actions := zeroLastActions }

/-- The mid-level intervention mix named by the claim: hydration,
electrolytes and rest at 0.5, the rest at 0. -/
def midLevels : InterventionLevels := ⟨0.5, 0.5, 0, 0.5, 0, 0⟩

/-! ## Simulation thresholds (`src/pulse/simulation.py`) -/

/-- `PulseSimulationController.thresholds` as initialized
(`simulation.py:60-64`). -/
def initThresholds : List (String × ℚ) :=
  [("low_oxygen_threshold", 90), ("high_hrv_threshold", 70),
   ("elevated_cardiac_output", 6)]

/-- `set_thresholds` (`simulation.py:218-227`): for each key/value pair of
the input dict, in order, assign the value only when the key already
exists. -/
def set_thresholds (thresholds updates : List (String × ℚ)) :
    List (String × ℚ) :=
  updates.foldl
    (fun th kv => if dictContains th kv.1 then dictSet th kv.1 kv.2 else th)
    thresholds

/-! ## Shared lemmas about `boundedAppend` -/

theorem boundedAppend_eq_drop {α : Type} (cap : Nat) (h : List α) (r : α)
    (hle : h.length ≤ cap) :
    boundedAppend cap h r = (h ++ [r]).drop ((h ++ [r]).length - cap) := by
  unfold boundedAppend
  by_cases hc : cap < (h ++ [r]).length
  · rw [if_pos hc]
    congr 1
    simp only [List.length_append, List.length_cons, List.length_nil] at hc ⊢
    omega
  · rw [if_neg hc]
    have h0 : (h ++ [r]).length - cap = 0 := by
      simp only [List.length_append, List.length_cons, List.length_nil] at hc ⊢
      omega
    rw [h0, List.drop_zero]

theorem length_boundedAppend_le {α : Type} (cap : Nat) (h : List α) (r : α)
    (hle : h.length ≤ cap) : (boundedAppend cap h r).length ≤ cap := by
  rw [boundedAppend_eq_drop cap h r hle, List.length_drop]
  simp only [List.length_append, List.length_cons, List.length_nil]
  omega

theorem foldl_boundedAppend_eq_drop {α : Type} (cap : Nat) (xs : List α) :
    ∀ h : List α, h.length ≤ cap →
      xs.foldl (boundedAppend cap) h = (h ++ xs).drop ((h ++ xs).length - cap) := by
  induction xs with
  | nil =>
    intro h hle
    have h0 : h.length - cap = 0 := by omega
    simp [h0]
  | cons x xs ih =>
    intro h hle
    rw [List.foldl_cons, ih (boundedAppend cap h x) (length_boundedAppend_le cap h x hle)]
    rw [boundedAppend_eq_drop cap h x hle]
    set d := (h ++ [x]).length - cap with hd
    have hdle : d ≤ (h ++ [x]).length := by omega
    rw [← List.drop_append_of_le_length hdle, List.drop_drop]
    have hassoc : h ++ [x] ++ xs = h ++ x :: xs := by simp
    rw [hassoc]
    congr 1
    simp only [List.length_drop, List.length_append, List.length_cons,
      List.length_nil] at *
    omega

/-- C2: the avatar state history never exceeds its capacity of 100 records,
and after any sequence of insertions into an initially empty history it holds
exactly the last 100 inserted records in insertion order (oldest evicted
first); with 100+k insertions `xs.length - max_history_length = k`, so the
history is exactly the last 100 records. -/
theorem history_bounded_and_suffix {α : Type} (xs : List α) :
    (insertAll xs).length ≤ max_history_length ∧
      insertAll xs = xs.drop (xs.length - max_history_length) := by
  have hpush : (pushHistory : List α → α → List α) = boundedAppend max_history_length := rfl
  have h := foldl_boundedAppend_eq_drop max_history_length xs [] (by simp)
  simp only [List.nil_append] at h
  have h2 : insertAll xs = xs.drop (xs.length - max_history_length) := by
    rw [insertAll, hpush, h]
  refine ⟨?_, h2⟩
  rw [insertAll, hpush, h, List.length_drop]
  omega

/-- C1: `_determine_primary_state` follows the fixed priority order
dizzy > beast_mode > chill > neutral: dizzy wins whenever its flag is true,
beast_mode whenever dizzy is false and its flag true, chill whenever both
higher flags are false and its flag true, and neutral when no flag is true —
an absent flag reads as false, so the empty flag dict resolves to neutral. -/
theorem determine_primary_state_priority (states : List (String × Bool)) :
    (flagGet states "is_dizzy" = true →
      determine_primary_state states = "is_dizzy") ∧
    (flagGet states "is_dizzy" = false → flagGet states "is_beast_mode" = true →
      determine_primary_state states = "is_beast_mode") ∧
    (flagGet states "is_dizzy" = false → flagGet states "is_beast_mode" = false →
      flagGet states "is_chill" = true →
      determine_primary_state states = "is_chill") ∧
    (flagGet states "is_dizzy" = false → flagGet states "is_beast_mode" = false →
      flagGet states "is_chill" = false →
      determine_primary_state states = "neutral") ∧
    determine_primary_state [] = "neutral" := by
  refine ⟨fun h1 => ?_, fun h1 h2 => ?_, fun h1 h2 h3 => ?_, fun h1 h2 h3 => ?_, ?_⟩
  · simp [determine_primary_state, h1]
  · simp [determine_primary_state, h1, h2]
  · simp [determine_primary_state, h1, h2, h3]
  · simp [determine_primary_state, h1, h2, h3]
  · simp [determine_primary_state, flagGet]

/-! ## Smoothing-buffer lemmas -/

theorem boundedAppend_lastWindow (cap : Nat) (p : List ℚ) (x : ℚ) :
    boundedAppend cap (lastWindow cap p) x = lastWindow cap (p ++ [x]) := by
  have hle : (lastWindow cap p).length ≤ cap := by
    simp only [lastWindow, List.length_drop]; omega
  rw [boundedAppend_eq_drop cap _ x hle]
  unfold lastWindow
  set d := p.length - cap with hd
  have hdle : d ≤ p.length := by omega
  rw [← List.drop_append_of_le_length hdle, List.drop_drop]
  congr 1
  simp only [List.length_drop, List.length_append, List.length_cons,
    List.length_nil] at *
  omega

theorem smooth_data_lastWindow (p : List ℚ) (x : ℚ) :
    smooth_data x (lastWindow buffer_size p)
      = (windowMean (lastWindow buffer_size (p ++ [x])),
         lastWindow buffer_size (p ++ [x])) := by
  simp only [smooth_data, windowMean, boundedAppend_lastWindow]

theorem smoothRun_spec (xs : List ℚ) :
    ∀ p : List ℚ, smoothRun (lastWindow buffer_size p) xs
      = (List.range xs.length).map
          (fun i => windowMean (lastWindow buffer_size (p ++ xs.take (i + 1)))) := by
  induction xs with
  | nil => intro p; simp [smoothRun]
  | cons x xs ih =>
    intro p
    simp only [smoothRun, smooth_data_lastWindow, List.length_cons]
    rw [ih (p ++ [x]), List.range_succ_eq_map, List.map_cons, List.map_map]
    congr 1
    apply List.map_congr_left
    intro i _
    simp [Function.comp, List.take_succ_cons, List.append_assoc]

/-- C3: the smoothing buffer with window 5 returns, on each observe call, the
arithmetic mean of at most the last 5 observations in insertion order (oldest
evicted on overflow): the i-th output is the mean of the last (at most) 5
elements of the first i+1 inputs, and the input sequence
[10,20,30,40,50,60] yields the outputs [10,15,20,25,30,40]. -/
theorem smoothing_window_mean :
    (∀ xs : List ℚ, smoothOutputs xs
      = (List.range xs.length).map
          (fun i => windowMean (lastWindow buffer_size (xs.take (i + 1))))) ∧
    smoothOutputs [10, 20, 30, 40, 50, 60] = [10, 15, 20, 25, 30, 40] := by
  have hgen : ∀ xs : List ℚ, smoothOutputs xs
      = (List.range xs.length).map
          (fun i => windowMean (lastWindow buffer_size (xs.take (i + 1)))) := by
    intro xs
    have h := smoothRun_spec xs []
    simpa [smoothOutputs, lastWindow] using h
  refine ⟨hgen, ?_⟩
  rw [hgen]
  norm_num [List.range_succ, windowMean, lastWindow, buffer_size]

/-! ## Current-state query -/

/-- C9: querying the current avatar state on an empty history returns a
default record that is neutral, carries the neutral description, and has no
timestamp, no flag snapshot and no physiological values; on a non-empty
history — in particular right after any history insertion — it returns
exactly the most recently appended record. -/
theorem get_current_state_spec (h : List AvatarRecord) (x : AvatarRecord) :
    (get_current_state []).primary_state = "neutral" ∧
    (get_current_state []).state_description = "Twin is in a neutral state" ∧
    (get_current_state []).timestamp = none ∧
    (get_current_state []).all_states = none ∧
    (get_current_state []).physiological_values = none ∧
    get_current_state (h ++ [x]) = x ∧
    get_current_state (pushHistory h x) = x := by
  refine ⟨rfl, by simp [get_current_state, dlookup, state_descriptions], rfl,
    rfl, rfl, ?_, ?_⟩
  · simp [get_current_state, List.getLast?_concat]
  · have hsome : (pushHistory h x).getLast? = some x := by
      unfold pushHistory boundedAppend
      by_cases hc : max_history_length < (h ++ [x]).length
      · rw [if_pos hc]
        cases h with
        | nil => simp [max_history_length] at hc
        | cons y ys => simp [List.cons_append, List.getLast?_concat]
      · rw [if_neg hc]
        simp [List.getLast?_concat]
    simp [get_current_state, hsome]

/-! ## Threshold-update lemmas -/

theorem dictSet_keys {α : Type} (d : List (String × α)) (k : String) (v : α) :
    (dictSet d k v).map Prod.fst = d.map Prod.fst := by
  induction d with
  | nil => rfl
  | cons kv rest ih =>
    simp only [dictSet, List.map_cons, ih]
    by_cases h : (kv.1 == k) = true <;> simp [h]

theorem dlookup_dictSet_ne {α : Type} (d : List (String × α)) (k k1 : String)
    (v : α) (hne : k ≠ k1) : dlookup (dictSet d k1 v) k = dlookup d k := by
  induction d with
  | nil => rfl
  | cons kv rest ih =>
    simp only [dictSet, dlookup]
    by_cases h : (kv.1 == k1) = true
    · have hk : kv.1 = k1 := by simpa using h
      have hkk : (kv.1 == k) = false := by
        rw [hk]
        exact beq_eq_false_iff_ne.mpr (fun he => hne he.symm)
      simp [h, hkk, ih]
    · by_cases h2 : (kv.1 == k) = true <;> simp [h, h2, ih]

theorem set_thresholds_steps (us : List (String × ℚ)) :
    ∀ th : List (String × ℚ),
      (set_thresholds th us).map Prod.fst = th.map Prod.fst ∧
      (∀ k : String, k ∉ us.map Prod.fst →
        dlookup (set_thresholds th us) k = dlookup th k) := by
  induction us with
  | nil => intro th; exact ⟨rfl, fun k _ => rfl⟩
  | cons kv us ih =>
    intro th
    have hstep : set_thresholds th (kv :: us)
        = set_thresholds
            (if dictContains th kv.1 then dictSet th kv.1 kv.2 else th) us := by
      simp [set_thresholds, List.foldl_cons]
    set th1 := if dictContains th kv.1 then dictSet th kv.1 kv.2 else th with hth1
    have hkeys1 : th1.map Prod.fst = th.map Prod.fst := by
      rw [hth1]
      split
      · exact dictSet_keys th kv.1 kv.2
      · rfl
    obtain ⟨ik, il⟩ := ih th1
    constructor
    · rw [hstep, ik, hkeys1]
    · intro k hk
      have hk1 : k ≠ kv.1 := by
        intro he
        exact hk (by simp [he, List.mem_cons])
      have hk2 : k ∉ us.map Prod.fst := by
        intro he
        exact hk (by simp [List.mem_cons, he])
      rw [hstep, il k hk2, hth1]
      split
      · exact dlookup_dictSet_ne th k kv.1 kv.2 hk1
      · rfl

/-- C10: updating thresholds touches only pre-existing threshold names: for
every current threshold dict and every input mapping, the list of threshold
names (keys, in order) after the update equals the list before, every
threshold whose name is not a key of the input keeps its previous value, and
starting from the initial dict the names stay exactly the three configured
ones — entries of the input with unknown keys are silently ignored. -/
theorem set_thresholds_frame (th us : List (String × ℚ)) :
    ((set_thresholds th us).map Prod.fst = th.map Prod.fst) ∧
    (∀ k : String, k ∉ us.map Prod.fst →
      dlookup (set_thresholds th us) k = dlookup th k) ∧
    ((set_thresholds initThresholds us).map Prod.fst
      = ["low_oxygen_threshold", "high_hrv_threshold",
         "elevated_cardiac_output"]) := by
  obtain ⟨h1, h2⟩ := set_thresholds_steps us th
  obtain ⟨h3, _⟩ := set_thresholds_steps us initThresholds
  exact ⟨h1, h2, by rw [h3]; rfl⟩

/-! ## Output fan-out -/

theorem notifyChannels_foldl {α ε : Type} (channels : List (OutputChannel α ε))
    (r : α) :
    ∀ acc : List (OutputChannel α ε) × List ε,
      channels.foldl (notifyStep r) acc
        = (acc.1 ++ channels.map (fun c => (channelUpdate c r).1),
           acc.2 ++ channels.filterMap (fun c => (channelUpdate c r).2)) := by
  induction channels with
  | nil => intro acc; simp
  | cons c cs ih =>
    intro acc
    rw [List.foldl_cons, ih]
    rcases hcu : channelUpdate c r with ⟨c1, o⟩
    cases o with
    | none => simp [notifyStep, hcu, List.filterMap_cons]
    | some e => simp [notifyStep, hcu, List.filterMap_cons]

/-- C8: broadcasting a state record is failure-isolated: with the channels
pre ++ bad :: post registered, where bad's update raises, the fan-out loop
still processes every channel in registration order and returns instead of
raising (the exception is merely collected in the log component), every
channel after the raising one whose update succeeds receives the record, and
the raising channel itself is left unchanged in the resulting channel list —
still registered for future broadcasts. -/
theorem broadcast_isolates_failures {α ε : Type}
    (pre post : List (OutputChannel α ε)) (bad : OutputChannel α ε)
    (r : α) (e : ε) (hbad : bad.behavior r = Except.error e) :
    (notifyChannels (pre ++ bad :: post) r).1
        = (pre ++ bad :: post).map (fun c => (channelUpdate c r).1) ∧
    (notifyChannels (pre ++ bad :: post) r).2
        = (pre ++ bad :: post).filterMap (fun c => (channelUpdate c r).2) ∧
    (∀ c : OutputChannel α ε, c ∈ post → c.behavior r = Except.ok () →
      (channelUpdate c r).1.received = c.received ++ [r] ∧
      (channelUpdate c r).1.behavior = c.behavior) ∧
    (channelUpdate bad r).1 = bad := by
  have hfold := notifyChannels_foldl (pre ++ bad :: post) r ([], [])
  refine ⟨?_, ?_, ?_, ?_⟩
  · rw [notifyChannels, hfold]; simp
  · rw [notifyChannels, hfold]; simp
  · intro c _ hok
    constructor <;> simp [channelUpdate, hok]
  · simp [channelUpdate, hbad]

/-- Witness for C8 at a concrete input: one succeeding channel before and one
after a raising channel, record 7. -/
theorem broadcast_isolates_failures_witness :
    (notifyChannels ([okChannel] ++ raisingChannel :: [okChannel]) 7).1
        = ([okChannel] ++ raisingChannel :: [okChannel]).map
            (fun c => (channelUpdate c 7).1) ∧
    (notifyChannels ([okChannel] ++ raisingChannel :: [okChannel]) 7).2
        = ([okChannel] ++ raisingChannel :: [okChannel]).filterMap
            (fun c => (channelUpdate c 7).2) ∧
    (∀ c : OutputChannel Nat String, c ∈ [okChannel] →
      c.behavior 7 = Except.ok () →
      (channelUpdate c 7).1.received = c.received ++ [7] ∧
      (channelUpdate c 7).1.behavior = c.behavior) ∧
    (channelUpdate raisingChannel 7).1 = raisingChannel :=
  broadcast_isolates_failures [okChannel] [okChannel] raisingChannel 7 "boom" rfl

/-! ## Trend classification -/

/-- C7: the trend analysis classifies the occurrence frequency
f = occurrences / records-in-window by exactly the cut points 0.1, 0.3 and
0.7: f < 0.1 is rare, 0.1 ≤ f < 0.3 occasional, 0.3 ≤ f < 0.7 frequent,
0.7 ≤ f dominant; a non-empty window reports that frequency together with
the occurrence and record counts, and an empty window yields trend "neutral"
with 0 occurrences, 0 total records and no frequency. -/
theorem get_state_trend_buckets (history : List AvatarRecord)
    (state_key : String) (now duration_seconds : ℚ) :
    (trendTotal history now duration_seconds = 0 →
      get_state_trend history state_key now duration_seconds
        = ⟨"neutral", none, 0, 0⟩) ∧
    (0 < trendTotal history now duration_seconds →
      (get_state_trend history state_key now duration_seconds).occurrences
          = trendOccurrences history state_key now duration_seconds ∧
      (get_state_trend history state_key now duration_seconds).total_records
          = trendTotal history now duration_seconds ∧
      (get_state_trend history state_key now duration_seconds).frequency
          = some (trendFrequency history state_key now duration_seconds) ∧
      (trendFrequency history state_key now duration_seconds < 0.1 →
        (get_state_trend history state_key now duration_seconds).trend
          = "rare") ∧
      (0.1 ≤ trendFrequency history state_key now duration_seconds →
        trendFrequency history state_key now duration_seconds < 0.3 →
        (get_state_trend history state_key now duration_seconds).trend
          = "occasional") ∧
      (0.3 ≤ trendFrequency history state_key now duration_seconds →
        trendFrequency history state_key now duration_seconds < 0.7 →
        (get_state_trend history state_key now duration_seconds).trend
          = "frequent") ∧
      (0.7 ≤ trendFrequency history state_key now duration_seconds →
        (get_state_trend history state_key now duration_seconds).trend
          = "dominant")) := by
  constructor
  · intro h0
    by_cases he : history.isEmpty
    · simp [get_state_trend, he]
    · simp [get_state_trend, he, h0]
  · intro hpos
    have he : history.isEmpty = false := by
      cases history with
      | nil => simp [trendTotal, windowFilter] at hpos
      | cons a l => rfl
    have hne : ¬ (trendTotal history now duration_seconds = 0) := by omega
    simp only [get_state_trend, he, Bool.false_eq_true, if_false, if_neg hne,
      trendFrequency]
    set f := (trendOccurrences history state_key now duration_seconds : ℚ) /
      (trendTotal history now duration_seconds : ℚ) with hf
    refine ⟨trivial, trivial, trivial, ?_, ?_, ?_, ?_⟩
    · intro h1
      show (if f < 0.1 then "rare"
        else if f < 0.3 then "occasional"
        else if f < 0.7 then "frequent" else "dominant") = "rare"
      rw [if_pos h1]
    · intro h1 h2
      show (if f < 0.1 then "rare"
        else if f < 0.3 then "occasional"
        else if f < 0.7 then "frequent" else "dominant") = "occasional"
      rw [if_neg (not_lt.mpr h1), if_pos h2]
    · intro h1 h2
      show (if f < 0.1 then "rare"
        else if f < 0.3 then "occasional"
        else if f < 0.7 then "frequent" else "dominant") = "frequent"
      rw [if_neg (not_lt.mpr (by linarith)), if_neg (not_lt.mpr h1), if_pos h2]
    · intro h1
      show (if f < 0.1 then "rare"
        else if f < 0.3 then "occasional"
        else if f < 0.7 then "frequent" else "dominant") = "dominant"
      rw [if_neg (not_lt.mpr (by linarith)), if_neg (not_lt.mpr (by linarith)),
        if_neg (not_lt.mpr h1)]

/-! ## Interval-workout intensity -/

/-- C4 (counterexample): for the active interval workout with maximum
intensity 1 running on [0, 600), the elapsed time t = 60 lies in the even
120-second interval [0, 120) — `⌊60/120⌋ = 0` — where the claim demands the
full intensity 1, yet the code returns 0.4: the code switches to 40% already
in the second half of each 120-second cycle. -/
theorem interval_intensity_cex :
    (get_current_intensity ⟨true, 1, 10, 0, 600, "interval"⟩ 60).1 = 0.4 ∧
    ⌊((60 : ℚ) - 0) / 120⌋ % 2 = 0 ∧ ((0.4 : ℚ) ≠ 1) := by
  refine ⟨?_, by norm_num, by norm_num⟩
  have hic : ¬ ("interval" = "constant") := by decide
  norm_num [get_current_intensity, fmod, hic]

/-- C4 (amended): for an active workout of type "interval" with maximum
intensity m, for every elapsed time t before the end time the returned
intensity is m when (t - start) mod 120 < 60 — the first half of each
120-second cycle — and 0.4·m when 60 ≤ (t - start) mod 120 — the second
half: the intensity alternates between m and 0.4·m every 60 seconds. -/
theorem interval_intensity_halves (s : WorkoutState) (t : ℚ)
    (hact : s.active = true) (htype : s.workout_type = "interval")
    (hstart : s.start_time ≤ t) (hend : t < s.end_time) :
    (fmod (t - s.start_time) 120 < 60 →
      (get_current_intensity s t).1 = s.intensity) ∧
    (60 ≤ fmod (t - s.start_time) 120 →
      (get_current_intensity s t).1 = s.intensity * 0.4) := by
  have hnotend : ¬ (s.end_time ≤ t) := not_le.mpr hend
  constructor
  · intro hlt
    have hc : fmod (t - s.start_time) 120 / 120 < 0.5 := by
      rw [div_lt_iff₀ (by norm_num : (0:ℚ) < 120)]
      nlinarith
    simp [get_current_intensity, hact, hnotend, htype, hc]
  · intro hge
    have hc : ¬ (fmod (t - s.start_time) 120 / 120 < 0.5) := by
      rw [not_lt, le_div_iff₀ (by norm_num : (0:ℚ) < 120)]
      nlinarith
    simp [get_current_intensity, hact, hnotend, htype, hc]

/-- Witness for C4 (amended) at a concrete input: the interval workout with
maximum intensity 1 on [0, 600) at elapsed time 30 (first half of the cycle)
returns the full intensity. -/
theorem interval_intensity_halves_witness :
    (get_current_intensity ⟨true, 1, 10, 0, 600, "interval"⟩ 30).1 = 1 := by
  have h := interval_intensity_halves ⟨true, 1, 10, 0, 600, "interval"⟩ 30
    rfl rfl (by norm_num) (by norm_num)
  have h30 : fmod ((30 : ℚ) - 0) 120 < 60 := by norm_num [fmod]
  simpa using h.1 h30

/-! ## Hangover session start -/

/-- C5 (code bug): starting a hangover session with an attached engine and
severity 0.7 succeeds, activates the session, zeroes the intervention levels
and records the start time — but the initial dehydration effect never reaches
the engine: `_apply_dehydration` reads the attribute `pulse_engine`, which is
never assigned (the engine reference lives in `engine`), so the lookup raises
`AttributeError`, `_apply_initial_hangover_effects` swallows it, and the
engine processes no hemorrhage action at all, against the documented intent
of applying a fluid loss at 0.1 + 0.4·severity mL/s. -/
theorem hangover_start_dehydration_lost :
    (start_hangover_simulation initialHangoverState 1000 0.7).2 = true ∧
    ((start_hangover_simulation initialHangoverState 1000 0.7).1).active = true ∧
    ((start_hangover_simulation initialHangoverState 1000 0.7).1).interventions
      = zeroLevels ∧
    ((start_hangover_simulation initialHangoverState 1000 0.7).1).start_time
      = 1000 ∧
    ((start_hangover_simulation initialHangoverState 1000 0.7).1).engineActions
      = [] ∧
    hasHangoverAttr "pulse_engine" = false ∧
    hasHangoverAttr "engine" = true := by
  have hattr : hasHangoverAttr "pulse_engine" = false := by decide
  have hattr2 : hasHangoverAttr "engine" = true := by decide
  refine ⟨?_, ?_, ?_, ?_, ?_, hattr, hattr2⟩ <;>
    simp [start_hangover_simulation, initialHangoverState,
      apply_initial_hangover_effects, apply_dehydration, hattr]

/-! ## Recovery-progress updates -/

theorem update_recovery_progress_formula (sev prog t0 now : ℚ)
    (lv : InterventionLevels)
    (hlt : prog + 1 / 86400 * (1 + weightedInterventions lv / (1 + sev) * 5)
        * (now - t0) < 0.99) :
    (update_recovery_progress (mkRecoveryState sev prog t0 lv) now).2
      = prog + 1 / 86400 * (1 + weightedInterventions lv / (1 + sev) * 5)
          * (now - t0) := by
  rw [update_recovery_progress]
  rw [if_neg (by simp [mkRecoveryState] :
    ¬ ((mkRecoveryState sev prog t0 lv).active = false))]
  dsimp only [mkRecoveryState]
  rw [min_eq_right (le_of_lt (lt_trans hlt (by norm_num)))]
  rw [if_neg (not_le.mpr hlt)]

/-- C6 (counterexample): with severity 0, starting progress 0.989 (strictly
below the cap 1.0, for both runs), elapsed time 100 s, and the mid-level
interventions hydration = electrolytes = rest = 0.5 (strictly positive
weighted sum), both the zero-intervention run and the intervention run hit
the ≥ 0.99 snap and return exactly 1.0 — progress does not advance strictly
faster with interventions, and the zero run does not advance by the claimed
(1/86400)·(1+5·recovery_rate)·Δt formula either. -/
theorem recovery_snap_cex :
    (update_recovery_progress (mkRecoveryState 0 0.989 0 zeroLevels) 100).2
      = 1 ∧
    (update_recovery_progress (mkRecoveryState 0 0.989 0 midLevels) 100).2
      = 1 ∧
    ¬ ((update_recovery_progress (mkRecoveryState 0 0.989 0 zeroLevels) 100).2
        < (update_recovery_progress (mkRecoveryState 0 0.989 0 midLevels) 100).2) ∧
    (update_recovery_progress (mkRecoveryState 0 0.989 0 zeroLevels) 100).2
      ≠ 0.989 + 1 / 86400 * (1 + 0 * 5) * (100 - 0) ∧
    (0.989 : ℚ) < 1 ∧ 0 < weightedInterventions midLevels := by
  have hz : (update_recovery_progress (mkRecoveryState 0 0.989 0 zeroLevels) 100).2
      = 1 := by
    rw [update_recovery_progress]
    norm_num [mkRecoveryState, weightedInterventions, zeroLevels, min_def]
  have hm : (update_recovery_progress (mkRecoveryState 0 0.989 0 midLevels) 100).2
      = 1 := by
    rw [update_recovery_progress]
    norm_num [mkRecoveryState, weightedInterventions, midLevels, min_def]
  refine ⟨hz, hm, by rw [hz, hm]; norm_num, by rw [hz]; norm_num,
    by norm_num, by norm_num [weightedInterventions, midLevels]⟩

/-- C6 (amended): below the 0.99 snap threshold the recovery update is
exactly the claimed affine step and is strictly monotone in the
interventions: for the same severity, starting progress and elapsed time,
the zero-intervention step advances by (1/86400)·(1+5·0)·Δt, a step with
interventions of strictly positive weighted sum advances by
(1/86400)·(1+5·recovery_rate)·Δt with recovery_rate =
Σ(level·multiplier)/(1+severity), and the latter is strictly larger —
provided the intervention run's updated progress stays below 0.99, where the
snap to 1.0 would otherwise let both runs coincide. -/
theorem recovery_intervention_monotone (sev prog t0 now : ℚ)
    (lv : InterventionLevels) (hsev : 0 ≤ sev) (hdt : t0 < now)
    (hpos : 0 < weightedInterventions lv)
    (hcap : prog + 1 / 86400 * (1 + weightedInterventions lv / (1 + sev) * 5)
        * (now - t0) < 0.99) :
    (update_recovery_progress (mkRecoveryState sev prog t0 zeroLevels) now).2
        = prog + 1 / 86400 * (1 + 0 * 5) * (now - t0) ∧
    (update_recovery_progress (mkRecoveryState sev prog t0 lv) now).2
        = prog + 1 / 86400 * (1 + weightedInterventions lv / (1 + sev) * 5)
            * (now - t0) ∧
    (update_recovery_progress (mkRecoveryState sev prog t0 zeroLevels) now).2
        < (update_recovery_progress (mkRecoveryState sev prog t0 lv) now).2 := by
  have h1sev : (0:ℚ) < 1 + sev := by linarith
  have hr : 0 < weightedInterventions lv / (1 + sev) := div_pos hpos h1sev
  have hdtpos : (0:ℚ) < now - t0 := by linarith
  have hdzdi : prog + 1 / 86400 * (1 + 0 * 5) * (now - t0)
      < prog + 1 / 86400 * (1 + weightedInterventions lv / (1 + sev) * 5)
          * (now - t0) := by
    have hprod := mul_pos hr hdtpos
    nlinarith
  have hmz : prog + 1 / 86400 * (1 + 0 * 5) * (now - t0) < 0.99 :=
    lt_trans hdzdi hcap
  have hw0 : weightedInterventions zeroLevels = 0 := by
    norm_num [weightedInterventions, zeroLevels]
  have hvz := update_recovery_progress_formula sev prog t0 now zeroLevels
    (by rw [hw0, zero_div]; exact hmz)
  rw [hw0, zero_div] at hvz
  have hvi := update_recovery_progress_formula sev prog t0 now lv hcap
  exact ⟨hvz, hvi, by rw [hvz, hvi]; exact hdzdi⟩

/-- Witness for C6 (amended) at a concrete input: severity 0.7, starting
progress 0, elapsed time 3600 s, mid-level interventions
hydration = electrolytes = rest = 0.5. -/
theorem recovery_intervention_monotone_witness :
    (update_recovery_progress (mkRecoveryState 0.7 0 0 zeroLevels) 3600).2
        = 0 + 1 / 86400 * (1 + 0 * 5) * (3600 - 0) ∧
    (update_recovery_progress (mkRecoveryState 0.7 0 0 midLevels) 3600).2
        = 0 + 1 / 86400 * (1 + weightedInterventions midLevels / (1 + 0.7) * 5)
            * (3600 - 0) ∧
    (update_recovery_progress (mkRecoveryState 0.7 0 0 zeroLevels) 3600).2
        < (update_recovery_progress (mkRecoveryState 0.7 0 0 midLevels) 3600).2 :=
  recovery_intervention_monotone 0.7 0 0 3600 midLevels (by norm_num)
    (by norm_num) (by norm_num [weightedInterventions, midLevels])
    (by norm_num [weightedInterventions, midLevels])

end PulsTwin
